import Mathlib

/-!
Verification of the EnergyPlus WeatherManager weather time-series engine
(src/EnergyPlus/WeatherManager.cc).

Shallow embedding conventions:
  - C `int` arithmetic is modelled as `Int`, with C truncating division
    written `Int.tdiv` (the source never overflows 32-bit in the verified
    ranges, so plain `Int` is faithful);
  - floating-point (`Real64`) quantities are modelled as exact rationals
    `ℚ`; transcendental sub-computations (exp, log, pow inside the solar
    models and psychrometrics) are taken as opaque input parameters where a
    claim does not depend on their value;
  - day-of-year indexed arrays such as `DSTIndex(1:366)` and
    `SpecialDayTypes(1:366)` are modelled as functions from day numbers.

The development also carries a `Nat`-valued mirror of the Julian-date
conversion code, used both for the bounded calendar computations and for
the stage analysis of the CACM decoding algorithm.
-/

namespace WeatherManager

/-! ## Calendar utility (lines 10076-10465) -/

/-- Function `isLeapYear` (line 10107): standard Gregorian rule.  The C
`mod` on the positive years of interest agrees with `Int.emod`. -/
def isLeapYear (Year : Int) : Bool :=
  if Year % 4 = 0 then
    if ¬(Year % 100 = 0 ∧ Year % 400 ≠ 0) then true else false
  else false

/-- Function `computeJulianDate` (lines 10196-10248): Gregorian date to
Julian day number, CACM vol 11 no 10 (1968) algorithm.  C integer division
truncates toward zero, hence `Int.tdiv`. -/
def computeJulianDate (gyyyy gmm gdd : Int) : Int :=
  let l : Int := Int.tdiv (gmm - 14) 12
  gdd - 32075 + Int.tdiv (1461 * (gyyyy + 4800 + l)) 4
    + Int.tdiv (367 * (gmm - 2 - l * 12)) 12
    - Int.tdiv (3 * (Int.tdiv (gyyyy + 4900 + l) 100)) 4

/-- Subroutine `JGDate` (lines 10115-10194): two-way converter dispatching
on `jflag` (1 = gregorian to julian, 2 = julian to gregorian).  The C
subroutine communicates through in/out parameters; here it returns the
updated `(jdate, gyyyy, gmm, gdd)` quadruple. -/
def JGDate (jflag jdate gyyyy gmm gdd : Int) : Int × Int × Int × Int :=
  if jflag = 1 then
    let tyyyy := gyyyy
    let tmm := gmm
    let tdd := gdd
    let l : Int := Int.tdiv (tmm - 14) 12
    (tdd - 32075 + Int.tdiv (1461 * (tyyyy + 4800 + l)) 4
      + Int.tdiv (367 * (tmm - 2 - l * 12)) 12
      - Int.tdiv (3 * (Int.tdiv (tyyyy + 4900 + l) 100)) 4,
     gyyyy, gmm, gdd)
  else if jflag = 2 then
    let tdate := jdate
    let l0 : Int := tdate + 68569
    let n : Int := Int.tdiv (4 * l0) 146097
    let l1 : Int := l0 - Int.tdiv (146097 * n + 3) 4
    let tyyyy : Int := Int.tdiv (4000 * (l1 + 1)) 1461001
    let l2 : Int := l1 - Int.tdiv (1461 * tyyyy) 4 + 31
    let tmm : Int := Int.tdiv (80 * l2) 2447
    let tdd : Int := l2 - Int.tdiv (2447 * tmm) 80
    let l3 : Int := Int.tdiv tmm 11
    (jdate, tyyyy + 100 * (n - 49) + l3, tmm + 2 - 12 * l3, tdd)
  else
    (jdate, gyyyy, gmm, gdd)

/-- The julian-to-gregorian direction of `JGDate` (the `toGregorian`
operation of the specification). -/
def toGregorian (jdate : Int) : Int × Int × Int :=
  (JGDate 2 jdate 0 0 0).2

/-- Function `validMonthDay` (lines 10412-10465): is a month/day(+leap)
combination valid.  Mirrors the C `switch` on the month, including the
`default: return false` arm. -/
def validMonthDay (month day leapYearAdd : Int) : Bool :=
  if month = 1 ∨ month = 3 ∨ month = 5 ∨ month = 7 ∨ month = 8 ∨ month = 10 ∨ month = 12 then
    if day > 31 then false else true
  else if month = 4 ∨ month = 6 ∨ month = 9 ∨ month = 11 then
    if day > 30 then false else true
  else if month = 2 then
    if day > 28 + leapYearAdd then false else true
  else false

/-! ## Nat-valued mirror of the Julian conversions

`natEncode` is `computeJulianDate` restated over `Nat` (valid for the
month conventions of the algorithm), and `nN` .. `nL3` are the successive
local variables of the julian-to-gregorian branch of `JGDate`.  These are
proved to agree with the `Int` functions below and are what the bounded
window computation runs on. -/

def natEncode (y m d : Nat) : Nat :=
  if m ≤ 2 then
    d + (1461 * (y + 4799)) / 4 + (367 * (m + 10)) / 12
      - ((3 * ((y + 4899) / 100)) / 4 + 32075)
  else
    d + (1461 * (y + 4800)) / 4 + (367 * (m - 2)) / 12
      - ((3 * ((y + 4900) / 100)) / 4 + 32075)

def nN (j : Nat) : Nat := (4 * (j + 68569)) / 146097

def nL1 (j : Nat) : Nat := (j + 68569) - (146097 * nN j + 3) / 4

def nYY (j : Nat) : Nat := (4000 * (nL1 j + 1)) / 1461001

def nL2 (j : Nat) : Nat := nL1 j + 31 - (1461 * nYY j) / 4

def nMM1 (j : Nat) : Nat := (80 * nL2 j) / 2447

def nDD (j : Nat) : Nat := nL2 j - (2447 * nMM1 j) / 80

def nL3 (j : Nat) : Nat := nMM1 j / 11

/-- Stage view of the local `n` of the `jflag = 2` branch of `JGDate`. -/
def jgN (j : Int) : Int := Int.tdiv (4 * (j + 68569)) 146097

def jgL1 (j : Int) : Int := (j + 68569) - Int.tdiv (146097 * jgN j + 3) 4

def jgYY (j : Int) : Int := Int.tdiv (4000 * (jgL1 j + 1)) 1461001

def jgL2 (j : Int) : Int := jgL1 j - Int.tdiv (1461 * jgYY j) 4 + 31

def jgMM1 (j : Int) : Int := Int.tdiv (80 * jgL2 j) 2447

def jgDD (j : Int) : Int := jgL2 j - Int.tdiv (2447 * jgMM1 j) 80

def jgL3 (j : Int) : Int := Int.tdiv (jgMM1 j) 11

/-- Mirror of `isLeapYear` over `Nat`. -/
def natLeap (y : Nat) : Bool :=
  if y % 4 = 0 then
    if ¬(y % 100 = 0 ∧ y % 400 ≠ 0) then true else false
  else false

/-- Month lengths as enforced by `validMonthDay`, over `Nat`. -/
def natDaysInMonth (y m : Nat) : Nat :=
  if m = 2 then (if natLeap y then 29 else 28)
  else if m = 4 ∨ m = 6 ∨ m = 9 ∨ m = 11 then 30
  else 31

/-- Bounded correctness check for one month: the decoder stages are
constant between the first and the last day of the month, and the decode
of the first day returns the expected year, month and day 1. -/
def natCheckMonth (y m : Nat) : Bool :=
  let j1 := natEncode y m 1
  let j2 := j1 + (natDaysInMonth y m - 1)
  (nN j1 == nN j2) && (nYY j1 == nYY j2) && (nMM1 j1 == nMM1 j2)
    && (nYY j1 + 100 * nN j1 + nL3 j1 == y + 4900)
    && (nMM1 j1 + 2 == m + 12 * nL3 j1)
    && (nDD j1 == 1)

/-- Bounded check over a range of years. -/
def natCheckRange (s n : Nat) : Bool :=
  (List.range n).all fun k => (List.range 12).all fun mi => natCheckMonth (s + k) (mi + 1)

/-! ## Design-day solar synthesis (SetUpDesignDay, lines 4571-4681) -/

/-- Solar model selector of a design-day specification (the
`DesDayInput(EnvrnNum).SolarModel` enumeration). -/
inductive SolarModelIndicator
  | ASHRAE_ClearSky
  | ASHRAE_Tau
  | ASHRAE_Tau2017
  | Zhang_Huang
  | SolarModel_Schedule
deriving DecidableEq

/-- Beam/diffuse generation for one design-day timestep (lines 4571-4663).
The schedule model copies the schedule values unconditionally ("whether sun
up or not", line 4575); every other model is gated on
`CosZenith < SunIsUpValue` (line 4593) and otherwise evaluates its
irradiance formula, whose exp/log based value is taken here as an opaque
`(beam, diffuse)` input pair per model.  Lines 4659-4660 apply the testing
override flags before the values are stored (lines 4662-4663). -/
def designDaySolarTimestep (model : SolarModelIndicator)
    (cosZenith sunIsUpValue : ℚ)
    (schedBeam schedDiff : ℚ)
    (clearSkyValue tauValue zhangHuangValue : ℚ × ℚ)
    (ignoreSolarRadiation ignoreBeamRadiation ignoreDiffuseRadiation : Bool) : ℚ × ℚ :=
  let bd : ℚ × ℚ :=
    if model = .SolarModel_Schedule then
      (schedBeam, schedDiff)
    else if cosZenith < sunIsUpValue then
      (0, 0)
    else
      match model with
      | .ASHRAE_ClearSky => clearSkyValue
      | .ASHRAE_Tau => tauValue
      | .ASHRAE_Tau2017 => tauValue
      | .Zhang_Huang => zhangHuangValue
      | .SolarModel_Schedule => (schedBeam, schedDiff)
  ((if ignoreSolarRadiation || ignoreBeamRadiation then 0 else bd.1),
   (if ignoreSolarRadiation || ignoreDiffuseRadiation then 0 else bd.2))

/-- Hour preceding `Hour` on the 24-hour clock (`mod(Hour + 22, 24) + 1`,
line 4672). -/
def Hour1Ago (Hour : Nat) : Nat := (Hour + 22) % 24 + 1

/-- Sum of `f ts` for `ts` running from 1 to `k`. -/
def sumTS (f : Nat → ℚ) (k : Nat) : ℚ := ∑ ts ∈ Finset.Icc 1 k, f ts

/-- Hourly back-fill of the sub-hourly solar series (lines 4671-4681):
the final timestep slots of the previous and current hour are averaged,
the remaining timesteps of the current hour are added, and the total is
divided by the number of timesteps.  `subHourly ts h` is the stored
sub-hourly value for timestep `ts` of hour `h`; the sub-hourly array is
not modified. -/
def backFilledHourlySolar (subHourly : Nat → Nat → ℚ) (NumOfTimeStepInHour Hour : Nat) : ℚ :=
  let rad0 := (subHourly NumOfTimeStepInHour (Hour1Ago Hour)
    + subHourly NumOfTimeStepInHour Hour) / 2
  let rad := if NumOfTimeStepInHour > 1 then
    rad0 + sumTS (fun ts => subHourly ts Hour) (NumOfTimeStepInHour - 1)
  else rad0
  rad / (NumOfTimeStepInHour : ℚ)

/-- Modelled from the spec for comparison: the plain average of the
timestep values within the hour, which is what the claim asserts the
back-fill to be. -/
def hourlyAverageOfTimesteps (subHourly : Nat → Nat → ℚ) (NumOfTimeStepInHour Hour : Nat) : ℚ :=
  (sumTS (fun ts => subHourly ts Hour) NumOfTimeStepInHour) / (NumOfTimeStepInHour : ℚ)

/-! ## Sub-hourly interpolation engine (lines 3579-3695 and 9804-9861) -/

/-- Linear interpolation weights (`SetupInterpolationValues`, lines
9853-9861): weight 1 when there is a single timestep per hour, otherwise
`min(1, tloop / NumOfTimeStepInHour)`. -/
def Interpolation (NumOfTimeStepInHour tloop : Nat) : ℚ :=
  if NumOfTimeStepInHour = 1 then 1
  else min 1 ((tloop : ℚ) / (NumOfTimeStepInHour : ℚ))

/-- Linear blend used for the non-solar fields (lines 3605-3613):
`LastHrValue * WtPrevHour + ThisHrValue * WtNow` with
`WtPrevHour = 1 - WtNow` (line 3582). -/
def interpolateField (lastHrValue thisHrValue wtNow : ℚ) : ℚ :=
  lastHrValue * (1 - wtNow) + thisHrValue * wtNow

/-- Truncation toward zero on rationals (the rounding of C `fmod`). -/
def ratTrunc (x : ℚ) : Int := if 0 ≤ x then ⌊x⌋ else ⌈x⌉

/-- C `fmod`: `fmod x y = x - y * trunc (x / y)`. -/
def cFmod (x y : ℚ) : ℚ := x - y * (ratTrunc (x / y) : ℚ)

/-- Wrap adjustment of `interpolateWindDirection` (lines 3685-3692): when
the raw angular difference exceeds 180, 360 is added to the smaller
angle. -/
def windDirAdjust (prevAng curAng : ℚ) : ℚ × ℚ :=
  if |curAng - prevAng| > 180 then
    (if curAng > prevAng then (prevAng + 360, curAng) else (prevAng, curAng + 360))
  else (prevAng, curAng)

/-- Function `interpolateWindDirection` (lines 3680-3695). -/
def interpolateWindDirection (prevHrWindDir curHrWindDir curHrWeight : ℚ) : ℚ :=
  let a := windDirAdjust prevHrWindDir curHrWindDir
  cFmod (a.1 + (a.2 - a.1) * curHrWeight) 360

/-! ## Missing-value policy for dry-bulb (lines 3340-3346, 3441, 3504) -/

/-- Result of processing the dry-bulb field of one weather-file record. -/
structure DryBulbReadResult where
  stored : ℚ
  lastKnown : ℚ
  missed : Nat
  outOfRange : Nat
deriving DecidableEq

/-- Dry-bulb handling of one record of `ReadEPlusWeatherForDay`: sentinel
substitution and missing tally (lines 3340-3343), out-of-range tally
(lines 3344-3346), storage into the sub-hourly array (line 3441) and the
update of the last-known-good value `Missing.DryBulb` after every record
(line 3504). -/
def readDryBulb (raw lastKnown : ℚ) (missed outOfRange : Nat) : DryBulbReadResult :=
  let dryBulb := if raw ≥ 999/10 then lastKnown else raw
  let missed1 := if raw ≥ 999/10 then missed + 1 else missed
  let outOfRange1 := if dryBulb < -90 ∨ dryBulb > 70 then outOfRange + 1 else outOfRange
  { stored := dryBulb, lastKnown := dryBulb, missed := missed1, outOfRange := outOfRange1 }

/-! ## DST day-of-year marking (SetDSTDateRanges, lines 1898-1906) -/

/-- Range assignment `arr({lo, hi}) = v` on a day-indexed array,
evaluated at `day`. -/
def assignRange (arr : Nat → Int) (lo hi : Nat) (v : Int) (day : Nat) : Int :=
  if lo ≤ day ∧ day ≤ hi then v else arr day

/-- The cleared DST array (`DSTIndex = 0`, line 1898). -/
def clearedDST (day : Nat) : Int := 0

/-- Marking phase of `SetDSTDateRanges` (lines 1898-1906): the whole
`DSTIndex` array is first cleared (`DSTIndex = 0`, line 1898), then the
resolved range `[JDay, JDay1]` is set to 1, split into `[JDay, 366]` and
`[1, JDay1]` when the end day precedes the start day.  The previous array
contents `DSTIndex` are a parameter only to exhibit that they are fully
overwritten. -/
def SetDSTDateRanges (DSTIndex : Nat → Int) (JDay JDay1 : Nat) (day : Nat) : Int :=
  if JDay1 ≥ JDay then assignRange clearedDST JDay JDay1 1 day
  else assignRange (assignRange clearedDST JDay 366 1) 1 JDay1 1 day

/-! ## Special-day day-of-year marking (SetSpecialDayDates, lines 1999-2013) -/

/-- One resolved special-day definition: start day-of-year, duration in
days, and the day type to mark. -/
structure SpecialDaySpec where
  jday : Nat
  duration : Nat
  dayType : Nat
deriving DecidableEq

/-- The day-marking loop of `SetSpecialDayDates` (lines 2007-2013):
starting at `JDay1 = JDay - 1`, each iteration increments the day,
applies the two wrap rules for day 366 (non-leap) and day 367, and writes
the day type into the array. -/
def markSpecialDays (types : Nat → Nat) (jday1 count leapYearAdd dayType : Nat) : Nat → Nat :=
  match count with
  | 0 => types
  | k + 1 =>
      let j0 := jday1 + 1
      let j1 := if j0 = 366 ∧ leapYearAdd = 0 then 1 else j0
      let j2 := if j1 = 367 then 1 else j1
      markSpecialDays (fun day => if day = j2 then dayType else types day) j2 k leapYearAdd dayType

/-- Handling of one special day by `SetSpecialDayDates`: the overlap
warning (lines 1999-2006) fires when the resolved start day already
carries a nonzero day type, and the marking loop then runs
unconditionally.  The state is the `SpecialDayTypes` array paired with
the number of warnings emitted so far. -/
def processSpecialDay (st : (Nat → Nat) × Nat) (sd : SpecialDaySpec) (leapYearAdd : Nat) :
    (Nat → Nat) × Nat :=
  let warnings := if st.1 sd.jday ≠ 0 then st.2 + 1 else st.2
  (markSpecialDays st.1 (sd.jday - 1) sd.duration leapYearAdd sd.dayType, warnings)

/-- Sequential resolution of a list of special-day definitions starting
from a cleared array (`SpecialDayTypes = 0`, line 1957). -/
def SetSpecialDayDates (specials : List SpecialDaySpec) (leapYearAdd : Nat) :
    (Nat → Nat) × Nat :=
  specials.foldl (fun st sd => processSpecialDay st sd leapYearAdd) (fun _ => 0, 0)

/-! ## Weather-file end-of-file policy (lines 2887-2948 and 3184-3241) -/

/-- Outcome of the end-of-file branch while searching for the first day
(lines 2887-2939). -/
inductive FirstDayEOFAction
  | rewindAndRetry
  | severeError
deriving DecidableEq

/-- End-of-file handling during the first-day search: a severe error once
a rewind has already happened (`NumRewinds > 0`, line 2888), otherwise
rewind, re-skip the header and read again (lines 2895-2897). -/
def firstDayEOFHandling (NumRewinds : Nat) : FirstDayEOFAction :=
  if NumRewinds > 0 then .severeError else .rewindAndRetry

/-- Outcome of a failed mid-run read (lines 3184-3241). -/
inductive MidRunReadFailAction
  | rewindAndContinue
  | fatalEndOfFile
  | fatalUnexpected
deriving DecidableEq

/-- Mid-run read-failure policy (lines 3184-3241): on end-of-file
(`ReadStatus < 0`) with a single data period covering at least a full
year, rewind and continue; end-of-file on a shorter single data period is
fatal; every other failure, including any failure with several data
periods, is fatal. -/
def midRunReadFailHandling (ReadStatus : Int) (NumDataPeriods NumDays NumDaysInYear : Nat) :
    MidRunReadFailAction :=
  if ReadStatus < 0 ∧ NumDataPeriods = 1 then
    if NumDays ≥ NumDaysInYear then .rewindAndContinue else .fatalEndOfFile
  else .fatalUnexpected

/-! ## Theorems -/

set_option maxRecDepth 100000 in
lemma natWindow0 : natCheckRange 1583 40 = true := rfl

set_option maxRecDepth 100000 in
lemma natWindow1 : natCheckRange 1623 40 = true := rfl

set_option maxRecDepth 100000 in
lemma natWindow2 : natCheckRange 1663 40 = true := rfl

set_option maxRecDepth 100000 in
lemma natWindow3 : natCheckRange 1703 40 = true := rfl

set_option maxRecDepth 100000 in
lemma natWindow4 : natCheckRange 1743 40 = true := rfl

set_option maxRecDepth 100000 in
lemma natWindow5 : natCheckRange 1783 40 = true := rfl

set_option maxRecDepth 100000 in
lemma natWindow6 : natCheckRange 1823 40 = true := rfl

set_option maxRecDepth 100000 in
lemma natWindow7 : natCheckRange 1863 40 = true := rfl

set_option maxRecDepth 100000 in
lemma natWindow8 : natCheckRange 1903 40 = true := rfl

set_option maxRecDepth 100000 in
lemma natWindow9 : natCheckRange 1943 40 = true := rfl

lemma toGregorian_stages (j : Int) :
    toGregorian j = (jgYY j + 100 * (jgN j - 49) + jgL3 j,
      jgMM1 j + 2 - 12 * jgL3 j, jgDD j) := rfl

lemma nL1_le (j : Nat) : (146097 * nN j + 3) / 4 ≤ j + 68569 := by
  unfold nN; omega

lemma nL2_le (j : Nat) : (1461 * nYY j) / 4 ≤ nL1 j + 31 := by
  unfold nYY nL1 nN; omega

lemma nDD_le (j : Nat) : (2447 * nMM1 j) / 80 ≤ nL2 j := by
  unfold nMM1 nL2 nYY nL1 nN; omega

lemma jgN_cast (j : Nat) : jgN (j : Int) = (nN j : Int) := by
  unfold jgN nN
  rw [Int.tdiv_eq_ediv (by positivity) (by norm_num)]
  omega

lemma jgL1_cast (j : Nat) : jgL1 (j : Int) = (nL1 j : Int) := by
  have h := nL1_le j
  unfold jgL1 nL1
  rw [jgN_cast, Int.tdiv_eq_ediv (by positivity) (by norm_num)]
  omega

lemma jgYY_cast (j : Nat) : jgYY (j : Int) = (nYY j : Int) := by
  unfold jgYY nYY
  rw [jgL1_cast, Int.tdiv_eq_ediv (by positivity) (by norm_num)]
  omega

lemma jgL2_cast (j : Nat) : jgL2 (j : Int) = (nL2 j : Int) := by
  have h := nL2_le j
  unfold jgL2 nL2
  rw [jgL1_cast, jgYY_cast, Int.tdiv_eq_ediv (by positivity) (by norm_num)]
  omega

lemma jgMM1_cast (j : Nat) : jgMM1 (j : Int) = (nMM1 j : Int) := by
  unfold jgMM1 nMM1
  rw [jgL2_cast, Int.tdiv_eq_ediv (by positivity) (by norm_num)]
  omega

lemma jgDD_cast (j : Nat) : jgDD (j : Int) = (nDD j : Int) := by
  have h := nDD_le j
  unfold jgDD nDD
  rw [jgL2_cast, jgMM1_cast, Int.tdiv_eq_ediv (by positivity) (by norm_num)]
  omega

lemma jgL3_cast (j : Nat) : jgL3 (j : Int) = (nL3 j : Int) := by
  unfold jgL3 nL3
  rw [jgMM1_cast, Int.tdiv_eq_ediv (by positivity) (by norm_num)]
  omega

lemma toGregorian_cast (j : Nat) :
    toGregorian (j : Int) = ((nYY j : Int) + 100 * ((nN j : Int) - 49) + nL3 j,
      (nMM1 j : Int) + 2 - 12 * (nL3 j : Int), (nDD j : Int)) := by
  rw [toGregorian_stages, jgYY_cast, jgN_cast, jgL3_cast, jgMM1_cast, jgDD_cast]

lemma tdiv_m14 (m : Int) (h1 : 1 ≤ m) (h2 : m ≤ 12) :
    Int.tdiv (m - 14) 12 = if m ≤ 2 then -1 else 0 := by
  interval_cases m <;> decide

lemma natEncode_eq (y m d : Nat) (hy : 1583 ≤ y) (hm1 : 1 ≤ m) (hm2 : m ≤ 12) :
    (natEncode y m d : Int) = computeJulianDate (y : Int) m d := by
  have hl := tdiv_m14 (m : Int) (by exact_mod_cast hm1) (by exact_mod_cast hm2)
  simp only [computeJulianDate, natEncode, hl]
  by_cases h : m ≤ 2
  · have h2 : (m : Int) ≤ 2 := by exact_mod_cast h
    rw [if_pos h2, if_pos h,
      Int.tdiv_eq_ediv (a := 1461 * ((y : Int) + 4800 + -1)) (by omega) (by norm_num),
      Int.tdiv_eq_ediv (a := 367 * ((m : Int) - 2 - (-1) * 12)) (by omega) (by norm_num),
      Int.tdiv_eq_ediv (a := (y : Int) + 4900 + -1) (by omega) (by norm_num),
      Int.tdiv_eq_ediv (by omega) (by norm_num),
      Nat.cast_sub (by omega)]
    push_cast [Int.ofNat_ediv]
    ring_nf
  · have h2 : ¬ ((m : Int) ≤ 2) := by
      intro hc
      exact h (by exact_mod_cast hc)
    have hm3 : 3 ≤ m := by omega
    have hm3i : (3 : Int) ≤ (m : Int) := by exact_mod_cast hm3
    rw [if_neg h2, if_neg h,
      Int.tdiv_eq_ediv (a := 1461 * ((y : Int) + 4800 + 0)) (by omega) (by norm_num),
      Int.tdiv_eq_ediv (a := 367 * ((m : Int) - 2 - 0 * 12)) (by omega) (by norm_num),
      Int.tdiv_eq_ediv (a := (y : Int) + 4900 + 0) (by omega) (by norm_num),
      Int.tdiv_eq_ediv (by omega) (by norm_num),
      Nat.cast_sub (by omega)]
    push_cast [Int.ofNat_ediv, Nat.cast_sub (show 2 <= m by omega)]
    ring_nf

lemma natEncode_shift (y m d : Nat) :
    natEncode (y + 400) m d = natEncode y m d + 146097 := by
  have d1 : (1461 * (y + 400 + 4799)) / 4 = (1461 * (y + 4799)) / 4 + 146100 := by
    rw [show 1461 * (y + 400 + 4799) = 1461 * (y + 4799) + 146100 * 4 by ring,
      Nat.add_mul_div_right _ _ (by norm_num)]
  have d1b : (1461 * (y + 400 + 4800)) / 4 = (1461 * (y + 4800)) / 4 + 146100 := by
    rw [show 1461 * (y + 400 + 4800) = 1461 * (y + 4800) + 146100 * 4 by ring,
      Nat.add_mul_div_right _ _ (by norm_num)]
  have d2 : (y + 400 + 4899) / 100 = (y + 4899) / 100 + 4 := by
    rw [show y + 400 + 4899 = y + 4899 + 4 * 100 by ring,
      Nat.add_mul_div_right _ _ (by norm_num)]
  have d2b : (y + 400 + 4900) / 100 = (y + 4900) / 100 + 4 := by
    rw [show y + 400 + 4900 = y + 4900 + 4 * 100 by ring,
      Nat.add_mul_div_right _ _ (by norm_num)]
  have d3 : (3 * ((y + 4899) / 100 + 4)) / 4 = (3 * ((y + 4899) / 100)) / 4 + 3 := by
    rw [show 3 * ((y + 4899) / 100 + 4) = 3 * ((y + 4899) / 100) + 3 * 4 by ring,
      Nat.add_mul_div_right _ _ (by norm_num)]
  have d3b : (3 * ((y + 4900) / 100 + 4)) / 4 = (3 * ((y + 4900) / 100)) / 4 + 3 := by
    rw [show 3 * ((y + 4900) / 100 + 4) = 3 * ((y + 4900) / 100) + 3 * 4 by ring,
      Nat.add_mul_div_right _ _ (by norm_num)]
  unfold natEncode
  split_ifs with h
  · rw [d1, d2, d3]
    have hb : 32075 + 3000 ≤ (1461 * (y + 4799)) / 4 := by omega
    omega
  · rw [d1b, d2b, d3b]
    have hb : 32075 + 3000 ≤ (1461 * (y + 4800)) / 4 := by omega
    omega

lemma natEncode_shift_iter (y m d q : Nat) :
    natEncode (y + 400 * q) m d = natEncode y m d + 146097 * q := by
  induction q with
  | zero => simp
  | succ k ih =>
      have e : y + 400 * (k + 1) = (y + 400 * k) + 400 := by ring
      rw [e, natEncode_shift, ih]
      ring

lemma nN_shift (j : Nat) : nN (j + 146097) = nN j + 4 := by
  unfold nN
  rw [show 4 * (j + 146097 + 68569) = 4 * (j + 68569) + 4 * 146097 by ring,
    Nat.add_mul_div_right _ _ (by norm_num)]

lemma nL1_shift (j : Nat) : nL1 (j + 146097) = nL1 j := by
  have b1 := nL1_le j
  unfold nL1
  rw [nN_shift,
    show 146097 * (nN j + 4) + 3 = 146097 * nN j + 3 + 146097 * 4 by ring,
    Nat.add_mul_div_right _ _ (by norm_num)]
  omega

lemma nYY_shift (j : Nat) : nYY (j + 146097) = nYY j := by
  unfold nYY; rw [nL1_shift]

lemma nL2_shift (j : Nat) : nL2 (j + 146097) = nL2 j := by
  unfold nL2; rw [nL1_shift, nYY_shift]

lemma nMM1_shift (j : Nat) : nMM1 (j + 146097) = nMM1 j := by
  unfold nMM1; rw [nL2_shift]

lemma nDD_shift (j : Nat) : nDD (j + 146097) = nDD j := by
  unfold nDD; rw [nL2_shift, nMM1_shift]

lemma nL3_shift (j : Nat) : nL3 (j + 146097) = nL3 j := by
  unfold nL3; rw [nMM1_shift]

lemma stages_shift_iter (j q : Nat) :
    nN (j + 146097 * q) = nN j + 4 * q ∧ nYY (j + 146097 * q) = nYY j ∧
      nMM1 (j + 146097 * q) = nMM1 j ∧ nDD (j + 146097 * q) = nDD j ∧
      nL3 (j + 146097 * q) = nL3 j := by
  induction q with
  | zero => simp
  | succ k ih =>
      obtain ⟨i1, i2, i3, i4, i5⟩ := ih
      have e : j + 146097 * (k + 1) = (j + 146097 * k) + 146097 := by ring
      rw [e, nN_shift, nYY_shift, nMM1_shift, nDD_shift, nL3_shift, i1, i2, i3, i4, i5]
      omega

lemma nN_mono {a b : Nat} (h : a ≤ b) : nN a ≤ nN b := by
  unfold nN; exact Nat.div_le_div_right (by omega)

lemma nL1_linear {j1 j : Nat} (h : j1 ≤ j) (hNe : nN j = nN j1) :
    nL1 j = nL1 j1 + (j - j1) := by
  have b1 := nL1_le j1
  unfold nL1
  rw [hNe]
  omega

lemma nYY_mono {a b : Nat} (hL : nL1 a ≤ nL1 b) : nYY a ≤ nYY b := by
  unfold nYY; exact Nat.div_le_div_right (by omega)

lemma nMM1_mono {a b : Nat} (hL : nL2 a ≤ nL2 b) : nMM1 a ≤ nMM1 b := by
  unfold nMM1; exact Nat.div_le_div_right (by omega)

lemma stage_sandwich (j1 j2 j : Nat) (h1 : j1 ≤ j) (h2 : j ≤ j2)
    (hN : nN j1 = nN j2) (hYY : nYY j1 = nYY j2) (hMM : nMM1 j1 = nMM1 j2) :
    nN j = nN j1 ∧ nYY j = nYY j1 ∧ nMM1 j = nMM1 j1 ∧ nL3 j = nL3 j1 ∧
      nDD j = nDD j1 + (j - j1) := by
  have h12 : j1 ≤ j2 := le_trans h1 h2
  have eN : nN j = nN j1 := by
    have a1 := nN_mono h1
    have a2 := nN_mono h2
    omega
  have eN2 : nN j2 = nN j1 := hN.symm
  have eL1 : nL1 j = nL1 j1 + (j - j1) := nL1_linear h1 eN
  have eL1b : nL1 j2 = nL1 j1 + (j2 - j1) := nL1_linear h12 eN2
  have eYY : nYY j = nYY j1 := by
    refine le_antisymm ?_ (nYY_mono (by omega))
    rw [hYY]
    exact nYY_mono (by omega)
  have eYY2 : nYY j2 = nYY j1 := hYY.symm
  have eL2 : nL2 j = nL2 j1 + (j - j1) := by
    have b2 := nL2_le j1
    unfold nL2
    rw [eYY, eL1]
    omega
  have eL2b : nL2 j2 = nL2 j1 + (j2 - j1) := by
    have b2 := nL2_le j1
    unfold nL2
    rw [eYY2, eL1b]
    omega
  have eMM : nMM1 j = nMM1 j1 := by
    refine le_antisymm ?_ (nMM1_mono (by omega))
    rw [hMM]
    exact nMM1_mono (by omega)
  have eDD : nDD j = nDD j1 + (j - j1) := by
    have b3 := nDD_le j1
    unfold nDD
    rw [eMM, eL2]
    omega
  have eL3 : nL3 j = nL3 j1 := by
    unfold nL3
    rw [eMM]
  exact ⟨eN, eYY, eMM, eL3, eDD⟩

lemma natCheckRange_elim {s n : Nat} (h : natCheckRange s n = true) {y m : Nat}
    (hy1 : s ≤ y) (hy2 : y < s + n) (hm1 : 1 ≤ m) (hm2 : m ≤ 12) :
    natCheckMonth y m = true := by
  unfold natCheckRange at h
  rw [List.all_eq_true] at h
  have h2 := h (y - s) (List.mem_range.mpr (by omega))
  rw [List.all_eq_true] at h2
  have h3 := h2 (m - 1) (List.mem_range.mpr (by omega))
  have e1 : s + (y - s) = y := by omega
  have e2 : m - 1 + 1 = m := by omega
  rw [e1, e2] at h3
  exact h3

lemma natEncode_linear (y m d : Nat) (hd : 1 ≤ d) :
    natEncode y m d = natEncode y m 1 + (d - 1) := by
  unfold natEncode
  split_ifs <;> omega

lemma natCheckMonth_window {y m : Nat} (hy1 : 1583 ≤ y) (hy2 : y ≤ 1982)
    (hm1 : 1 ≤ m) (hm2 : m ≤ 12) : natCheckMonth y m = true := by
  by_cases c0 : y < 1623
  · exact natCheckRange_elim natWindow0 (by omega) (by omega) hm1 hm2
  by_cases c1 : y < 1663
  · exact natCheckRange_elim natWindow1 (by omega) (by omega) hm1 hm2
  by_cases c2 : y < 1703
  · exact natCheckRange_elim natWindow2 (by omega) (by omega) hm1 hm2
  by_cases c3 : y < 1743
  · exact natCheckRange_elim natWindow3 (by omega) (by omega) hm1 hm2
  by_cases c4 : y < 1783
  · exact natCheckRange_elim natWindow4 (by omega) (by omega) hm1 hm2
  by_cases c5 : y < 1823
  · exact natCheckRange_elim natWindow5 (by omega) (by omega) hm1 hm2
  by_cases c6 : y < 1863
  · exact natCheckRange_elim natWindow6 (by omega) (by omega) hm1 hm2
  by_cases c7 : y < 1903
  · exact natCheckRange_elim natWindow7 (by omega) (by omega) hm1 hm2
  by_cases c8 : y < 1943
  · exact natCheckRange_elim natWindow8 (by omega) (by omega) hm1 hm2
  exact natCheckRange_elim natWindow9 (by omega) (by omega) hm1 hm2

lemma base_stages {y m d : Nat} (hy1 : 1583 ≤ y) (hy2 : y ≤ 1982)
    (hm1 : 1 ≤ m) (hm2 : m ≤ 12) (hd1 : 1 ≤ d) (hd2 : d ≤ natDaysInMonth y m) :
    nYY (natEncode y m d) + 100 * nN (natEncode y m d) + nL3 (natEncode y m d) = y + 4900 ∧
      nMM1 (natEncode y m d) + 2 = m + 12 * nL3 (natEncode y m d) ∧
      nDD (natEncode y m d) = d := by
  have hc := natCheckMonth_window hy1 hy2 hm1 hm2
  simp only [natCheckMonth, Bool.and_eq_true, beq_iff_eq] at hc
  obtain ⟨⟨⟨⟨⟨cN, cYY⟩, cMM⟩, cY⟩, cM⟩, cD⟩ := hc
  have hlin := natEncode_linear y m d hd1
  have hL1 : 1 ≤ natDaysInMonth y m := by
    unfold natDaysInMonth
    split_ifs <;> omega
  have hle1 : natEncode y m 1 ≤ natEncode y m d := by omega
  have hle2 : natEncode y m d ≤ natEncode y m 1 + (natDaysInMonth y m - 1) := by omega
  obtain ⟨sN, sYY, sMM, sL3, sDD⟩ :=
    stage_sandwich (natEncode y m 1) (natEncode y m 1 + (natDaysInMonth y m - 1))
      (natEncode y m d) hle1 hle2 cN cYY cMM
  refine ⟨by rw [sN, sYY, sL3]; exact cY, by rw [sMM, sL3]; exact cM, ?_⟩
  rw [sDD, cD]
  omega

lemma natLeap_shift (y : Nat) : natLeap (y + 400) = natLeap y := by
  unfold natLeap
  have a : (y + 400) % 4 = y % 4 := by omega
  have b : (y + 400) % 100 = y % 100 := by omega
  have c : (y + 400) % 400 = y % 400 := by omega
  rw [a, b, c]

lemma natLeap_iter (y q : Nat) : natLeap (y + 400 * q) = natLeap y := by
  induction q with
  | zero => rfl
  | succ k ih =>
      have e : y + 400 * (k + 1) = (y + 400 * k) + 400 := by ring
      rw [e, natLeap_shift, ih]

lemma natDaysInMonth_iter (y q m : Nat) :
    natDaysInMonth (y + 400 * q) m = natDaysInMonth y m := by
  unfold natDaysInMonth
  rw [natLeap_iter]

lemma isLeapYear_cast (n : Nat) : isLeapYear (n : Int) = natLeap n := by
  unfold isLeapYear natLeap
  have a : ((n : Int) % 4 = 0) ↔ (n % 4 = 0) := by omega
  have b : ((n : Int) % 100 = 0) ↔ (n % 100 = 0) := by omega
  have c : ((n : Int) % 400 ≠ 0) ↔ (n % 400 ≠ 0) := by omega
  simp only [a, b, c]

lemma validMonthDay_cases {m d a : Int} (h : validMonthDay m d a = true) :
    ((m = 1 ∨ m = 3 ∨ m = 5 ∨ m = 7 ∨ m = 8 ∨ m = 10 ∨ m = 12) ∧ d ≤ 31) ∨
    ((m = 4 ∨ m = 6 ∨ m = 9 ∨ m = 11) ∧ d ≤ 30) ∨ (m = 2 ∧ d ≤ 28 + a) := by
  unfold validMonthDay at h
  split_ifs at h <;> simp_all

lemma days_of_valid (nm nd ny : Nat)
    (hval : validMonthDay (nm : Int) (nd : Int) (if natLeap ny then 1 else 0) = true) :
    nd ≤ natDaysInMonth ny nm := by
  have hcases := validMonthDay_cases hval
  unfold natDaysInMonth
  rcases hL : natLeap ny
  · have hplus : (if natLeap ny then (1 : Int) else 0) = 0 := by rw [hL]; rfl
    rw [hplus] at hcases
    norm_num
    split_ifs <;> omega
  · have hplus : (if natLeap ny then (1 : Int) else 0) = 1 := by rw [hL]; rfl
    rw [hplus] at hcases
    norm_num
    split_ifs <;> omega

lemma toGregorian_computeJulianDate (y m d : Int) (hy : 1583 ≤ y) (hd : 1 ≤ d)
    (hval : validMonthDay m d (if isLeapYear y then 1 else 0) = true) :
    toGregorian (computeJulianDate y m d) = (y, m, d) := by
  have hcases := validMonthDay_cases hval
  have hm1 : 1 ≤ m := by omega
  have hm2 : m ≤ 12 := by omega
  set ny := y.toNat with hnydef
  set nm := m.toNat with hnmdef
  set nd := d.toNat with hnddef
  have hyc : (ny : Int) = y := Int.toNat_of_nonneg (by omega)
  have hmc : (nm : Int) = m := Int.toNat_of_nonneg (by omega)
  have hdc : (nd : Int) = d := Int.toNat_of_nonneg (by omega)
  have hny : 1583 ≤ ny := by omega
  have hnm1 : 1 ≤ nm := by omega
  have hnm2 : nm ≤ 12 := by omega
  have hnd1 : 1 ≤ nd := by omega
  have hiso : isLeapYear y = natLeap ny := by rw [← hyc, isLeapYear_cast]
  have hdays : nd ≤ natDaysInMonth ny nm := by
    apply days_of_valid nm nd ny
    rw [hmc, hdc, ← hiso]
    exact hval
  -- decompose the year into base window plus 400-year multiples
  set q := (ny - 1583) / 400 with hqdef
  set y0 := 1583 + (ny - 1583) % 400 with hy0def
  have hsplit : ny = y0 + 400 * q := by omega
  have hy01 : 1583 ≤ y0 := by omega
  have hy02 : y0 ≤ 1982 := by omega
  have hdays0 : nd ≤ natDaysInMonth y0 nm := by
    rw [hsplit, natDaysInMonth_iter] at hdays
    exact hdays
  obtain ⟨b1, b2, b3⟩ := base_stages hy01 hy02 hnm1 hnm2 hnd1 hdays0
  have hshift : natEncode ny nm nd = natEncode y0 nm nd + 146097 * q := by
    rw [hsplit, natEncode_shift_iter]
  have hJ : computeJulianDate y m d = ((natEncode ny nm nd : Nat) : Int) := by
    rw [← hyc, ← hmc, ← hdc, natEncode_eq ny nm nd hny hnm1 hnm2]
  obtain ⟨t1, t2, t3, t4, t5⟩ := stages_shift_iter (natEncode y0 nm nd) q
  rw [hJ, toGregorian_cast, hshift, t1, t2, t3, t4, t5, Prod.mk.injEq, Prod.mk.injEq]
  refine ⟨by omega, by omega, by omega⟩

/-- C1: for every valid Gregorian date (year, month, day) with
year at least 1583, converting to a Julian day number with
`computeJulianDate` (equivalently `JGDate` direction 1) and converting
back with `toGregorian` (`JGDate` direction 2) returns exactly the
original (year, month, day). -/
theorem julian_gregorian_roundtrip (y m d : Int) (hy : 1583 ≤ y) (hd : 1 ≤ d)
    (hval : validMonthDay m d (if isLeapYear y then 1 else 0) = true) :
    toGregorian (computeJulianDate y m d) = (y, m, d) ∧
    (JGDate 1 0 y m d).1 = computeJulianDate y m d :=
  ⟨toGregorian_computeJulianDate y m d hy hd hval, rfl⟩

/-- Witness for C1 at the concrete leap date 2024-02-29. -/
theorem julian_gregorian_roundtrip_witness :
    toGregorian (computeJulianDate 2024 2 29) = (2024, 2, 29) ∧
    (JGDate 1 0 2024 2 29).1 = computeJulianDate 2024 2 29 :=
  julian_gregorian_roundtrip 2024 2 29 (by norm_num) (by norm_num) (by decide)


/-- Counterexample to C2 as stated: under the schedule solar model the
stored beam/diffuse pair equals the schedule values (100, 50), not (0, 0),
even though the cosine of the zenith angle (0) is below the sun-up
threshold (1). -/
theorem designDaySolar_schedule_not_zeroed :
    (0 : ℚ) < 1 ∧
    designDaySolarTimestep .SolarModel_Schedule 0 1 100 50 (0, 0) (0, 0) (0, 0)
      false false false ≠ (0, 0) := by
  constructor
  · norm_num
  · decide

/-- C2 (amended): at every design-day timestep at which the cosine of the
solar zenith angle is below the sun-up threshold, the stored beam and
diffuse solar radiation are exactly 0 for the ASHRAE Clear-Sky, ASHRAE
Tau, ASHRAE Tau-2017 and Zhang-Huang models, for any override flags; the
schedule model instead stores the schedule values unconditionally. -/
theorem designDaySolar_sun_below_threshold (model : SolarModelIndicator)
    (hm : model ≠ .SolarModel_Schedule)
    (cosZenith sunIsUpValue schedBeam schedDiff : ℚ)
    (clearSkyValue tauValue zhangHuangValue : ℚ × ℚ)
    (iS iB iD : Bool)
    (hsun : cosZenith < sunIsUpValue) :
    designDaySolarTimestep model cosZenith sunIsUpValue schedBeam schedDiff
      clearSkyValue tauValue zhangHuangValue iS iB iD = (0, 0) ∧
    designDaySolarTimestep .SolarModel_Schedule cosZenith sunIsUpValue schedBeam schedDiff
      clearSkyValue tauValue zhangHuangValue false false false = (schedBeam, schedDiff) := by
  constructor
  · unfold designDaySolarTimestep
    rw [if_neg hm, if_pos hsun]
    rcases iS <;> rcases iB <;> rcases iD <;> rfl
  · rfl

/-- Witness for C2 at a concrete below-threshold timestep. -/
theorem designDaySolar_witness :
    designDaySolarTimestep .ASHRAE_ClearSky 0 1 100 50 (3, 4) (5, 6) (7, 8)
      false false false = (0, 0) ∧
    designDaySolarTimestep .SolarModel_Schedule 0 1 100 50 (3, 4) (5, 6) (7, 8)
      false false false = (100, 50) :=
  designDaySolar_sun_below_threshold .ASHRAE_ClearSky (by decide) 0 1 100 50
    (3, 4) (5, 6) (7, 8) false false false (by norm_num)

/-- Convexity of the linear blend: shared helper for C4. -/
lemma interpolateField_bounds (prev cur w : ℚ) (h0 : 0 ≤ w) (h1 : w ≤ 1) :
    min prev cur ≤ interpolateField prev cur w ∧
    interpolateField prev cur w ≤ max prev cur := by
  unfold interpolateField
  rcases le_total prev cur with hpc | hpc
  · rw [min_eq_left hpc, max_eq_right hpc]
    constructor <;> nlinarith [mul_nonneg (sub_nonneg.mpr hpc) h0,
      mul_nonneg (sub_nonneg.mpr hpc) (sub_nonneg.mpr h1)]
  · rw [min_eq_right hpc, max_eq_left hpc]
    constructor <;> nlinarith [mul_nonneg (sub_nonneg.mpr hpc) h0,
      mul_nonneg (sub_nonneg.mpr hpc) (sub_nonneg.mpr h1)]

/-- C3: the wind-direction interpolation adjusts the two samples so that
their difference is the shorter angular arc, hence never more than 180
degrees of travel, and interpolating from 350 to 10 degrees at weight 0.5
yields 0 degrees. -/
theorem interpolateWindDirection_shorter_arc (p c w : ℚ)
    (hp0 : 0 ≤ p) (hp1 : p ≤ 360) (hc0 : 0 ≤ c) (hc1 : c ≤ 360)
    (hw0 : 0 ≤ w) (hw1 : w ≤ 1) :
    |(windDirAdjust p c).2 - (windDirAdjust p c).1| = min |c - p| (360 - |c - p|) ∧
    |(windDirAdjust p c).2 - (windDirAdjust p c).1| ≤ 180 ∧
    |((windDirAdjust p c).1 + ((windDirAdjust p c).2 - (windDirAdjust p c).1) * w)
        - (windDirAdjust p c).1| ≤ 180 ∧
    interpolateWindDirection 350 10 (1/2) = 0 := by
  have hconc : interpolateWindDirection 350 10 (1/2) = 0 := by
    unfold interpolateWindDirection windDirAdjust cFmod ratTrunc
    norm_num
  have key : |(windDirAdjust p c).2 - (windDirAdjust p c).1| = min |c - p| (360 - |c - p|) := by
    unfold windDirAdjust
    split_ifs with hd hc
    · dsimp only
      have h1 : c - p > 180 := by rwa [abs_of_nonneg (by linarith)] at hd
      rw [abs_of_nonpos (by linarith : c - (p + 360) ≤ 0),
        abs_of_nonneg (by linarith : (0:ℚ) ≤ c - p), min_eq_right (by linarith)]
      ring
    · dsimp only
      push_neg at hc
      have h1 : -(c - p) > 180 := by rwa [abs_of_nonpos (by linarith)] at hd
      rw [abs_of_nonneg (by linarith : (0:ℚ) ≤ c + 360 - p),
        abs_of_nonpos (by linarith : c - p ≤ 0), min_eq_right (by linarith)]
      ring
    · dsimp only
      push_neg at hd
      rw [min_eq_left (by linarith)]
  have key2 : |(windDirAdjust p c).2 - (windDirAdjust p c).1| ≤ 180 := by
    rw [key]
    rcases le_total |c - p| 180 with h | h
    · exact le_trans (min_le_left _ _) h
    · exact le_trans (min_le_right _ _) (by linarith)
  refine ⟨key, key2, ?_, hconc⟩
  have e : ((windDirAdjust p c).1 + ((windDirAdjust p c).2 - (windDirAdjust p c).1) * w)
      - (windDirAdjust p c).1 = ((windDirAdjust p c).2 - (windDirAdjust p c).1) * w := by
    ring
  rw [e, abs_mul, abs_of_nonneg hw0]
  nlinarith [abs_nonneg ((windDirAdjust p c).2 - (windDirAdjust p c).1)]

theorem interpolateWindDirection_witness :
    |(windDirAdjust 350 10).2 - (windDirAdjust 350 10).1|
        = min |(10 : ℚ) - 350| (360 - |(10 : ℚ) - 350|) ∧
    |(windDirAdjust 350 10).2 - (windDirAdjust 350 10).1| ≤ 180 ∧
    |((windDirAdjust 350 10).1
        + ((windDirAdjust 350 10).2 - (windDirAdjust 350 10).1) * (1/2))
        - (windDirAdjust 350 10).1| ≤ 180 ∧
    interpolateWindDirection 350 10 (1/2) = 0 :=
  interpolateWindDirection_shorter_arc 350 10 (1/2) (by norm_num) (by norm_num)
    (by norm_num) (by norm_num) (by norm_num) (by norm_num)

/-- C4: the interpolation weight for timestep t of N per hour equals t/N,
and the interpolated value lies within the band spanned by the previous
and current hourly values. -/
theorem interpolation_weight_bounded (N t : Nat) (h1 : 1 ≤ t) (h2 : t ≤ N)
    (prev cur : ℚ) :
    Interpolation N t = (t : ℚ) / (N : ℚ) ∧
    min prev cur ≤ interpolateField prev cur (Interpolation N t) ∧
    interpolateField prev cur (Interpolation N t) ≤ max prev cur := by
  have hN : 1 ≤ N := le_trans h1 h2
  have hNpos : (0 : ℚ) < (N : ℚ) := by exact_mod_cast hN
  have hw : Interpolation N t = (t : ℚ) / (N : ℚ) := by
    unfold Interpolation
    split_ifs with h
    · subst h
      have ht : t = 1 := by omega
      subst ht
      norm_num
    · rw [min_eq_right]
      rw [div_le_one hNpos]
      exact_mod_cast h2
  have hw0 : 0 ≤ (t : ℚ) / (N : ℚ) := by positivity
  have hw1 : (t : ℚ) / (N : ℚ) ≤ 1 := by
    rw [div_le_one hNpos]
    exact_mod_cast h2
  rw [hw]
  exact ⟨rfl, (interpolateField_bounds prev cur _ hw0 hw1).1,
    (interpolateField_bounds prev cur _ hw0 hw1).2⟩

theorem interpolation_weight_bounded_witness :
    Interpolation 4 3 = (3 : ℚ) / 4 ∧
    min (5 : ℚ) 9 ≤ interpolateField 5 9 (Interpolation 4 3) ∧
    interpolateField 5 9 (Interpolation 4 3) ≤ max (5 : ℚ) 9 :=
  interpolation_weight_bounded 4 3 (by norm_num) (by norm_num) 5 9

/-- C5: a dry-bulb reading at or above the 99.9 sentinel stores the
last-known-good value and increments the missing counter by exactly one;
a valid reading is stored as-is; the last-known-good value is updated to
the stored value after every record. -/
theorem missing_drybulb_substitution (raw lastKnown : ℚ) (missed outOfRange : Nat) :
    ((999 : ℚ)/10 ≤ raw →
      (readDryBulb raw lastKnown missed outOfRange).stored = lastKnown ∧
      (readDryBulb raw lastKnown missed outOfRange).missed = missed + 1) ∧
    (raw < (999 : ℚ)/10 →
      (readDryBulb raw lastKnown missed outOfRange).stored = raw ∧
      (readDryBulb raw lastKnown missed outOfRange).missed = missed) ∧
    (readDryBulb raw lastKnown missed outOfRange).lastKnown =
      (readDryBulb raw lastKnown missed outOfRange).stored := by
  unfold readDryBulb
  refine ⟨fun h => ?_, fun h => ?_, ?_⟩
  · rw [if_pos (by exact h), if_pos (by exact h)]
    exact ⟨rfl, rfl⟩
  · rw [if_neg (by exact not_le.mpr h), if_neg (by exact not_le.mpr h)]
    exact ⟨rfl, rfl⟩
  · dsimp only

theorem missing_drybulb_substitution_witness :
    (readDryBulb 100 (21/2) 3 0).stored = 21/2 ∧
    (readDryBulb 100 (21/2) 3 0).missed = 3 + 1 :=
  (missing_drybulb_substitution 100 (21/2) 3 0).1 (by norm_num)

/-- C6: SetDSTDateRanges produces a 0/1 marking that is exactly the
resolved range, contiguous when the end day-of-year is at least the start
day-of-year and wrapping through day 366 and day 1 otherwise, and the
result does not depend on the previous contents of the array. -/
theorem setDSTDateRanges_marks (prev prev2 : Nat → Int) (JDay JDay1 : Nat)
    (hs1 : 1 ≤ JDay) (hs2 : JDay ≤ 366) (he1 : 1 ≤ JDay1) (he2 : JDay1 ≤ 366)
    (day : Nat) (hd1 : 1 ≤ day) (hd2 : day ≤ 366) :
    (SetDSTDateRanges prev JDay JDay1 day = 1 ∨ SetDSTDateRanges prev JDay JDay1 day = 0) ∧
    (SetDSTDateRanges prev JDay JDay1 day = 1 ↔
      (JDay ≤ JDay1 ∧ JDay ≤ day ∧ day ≤ JDay1) ∨
      (JDay1 < JDay ∧ (JDay ≤ day ∨ day ≤ JDay1))) ∧
    SetDSTDateRanges prev JDay JDay1 day = SetDSTDateRanges prev2 JDay JDay1 day := by
  unfold SetDSTDateRanges assignRange clearedDST
  split_ifs <;> refine ⟨by omega, by omega, rfl⟩

theorem setDSTDateRanges_marks_witness :
    (SetDSTDateRanges (fun _ => 7) 300 60 20 = 1 ∨ SetDSTDateRanges (fun _ => 7) 300 60 20 = 0) ∧
    (SetDSTDateRanges (fun _ => 7) 300 60 20 = 1 ↔
      (300 ≤ 60 ∧ 300 ≤ 20 ∧ 20 ≤ 60) ∨ (60 < 300 ∧ (300 ≤ 20 ∨ 20 ≤ 60))) ∧
    SetDSTDateRanges (fun _ => 7) 300 60 20 = SetDSTDateRanges (fun _ => 0) 300 60 20 :=
  setDSTDateRanges_marks (fun _ => 7) (fun _ => 0) 300 60 (by norm_num) (by norm_num)
    (by norm_num) (by norm_num) 20 (by norm_num) (by norm_num)

/-- Counterexample to C7 as stated: two special days resolving to day 100
leave day type 2 (the later definition), not 1 (the earlier one), while
one overlap warning is emitted. -/
theorem specialDays_first_assignment_not_kept :
    (SetSpecialDayDates [⟨100, 1, 1⟩, ⟨100, 1, 2⟩] 0).1 100 = 2 ∧
    (SetSpecialDayDates [⟨100, 1, 1⟩, ⟨100, 1, 2⟩] 0).2 = 1 ∧
    (SetSpecialDayDates [⟨100, 1, 1⟩, ⟨100, 1, 2⟩] 0).1 100 ≠ 1 := by
  refine ⟨rfl, rfl, by decide⟩

/-- C7 (amended): when a special day resolves to a start day-of-year that
is already marked, a non-fatal warning is counted and the later
definition overwrites the marking with its own day type. -/
theorem specialDays_overlap_warns_and_overwrites (types : Nat → Nat) (w : Nat)
    (j t a : Nat) (h1 : 1 ≤ j) (h2 : j ≤ 365) (hover : types j ≠ 0) :
    (processSpecialDay (types, w) ⟨j, 1, t⟩ a).2 = w + 1 ∧
    (processSpecialDay (types, w) ⟨j, 1, t⟩ a).1 j = t := by
  have e1 : j - 1 + 1 = j := by omega
  have e2 : ¬(j = 366 ∧ a = 0) := by omega
  have e3 : j ≠ 367 := by omega
  simp only [processSpecialDay, markSpecialDays, e1, if_neg e2, if_neg e3]
  simp [hover]

theorem specialDays_overlap_witness :
    (processSpecialDay ((fun day => if day = 100 then 1 else 0), 0) ⟨100, 1, 2⟩ 0).2 = 0 + 1 ∧
    (processSpecialDay ((fun day => if day = 100 then 1 else 0), 0) ⟨100, 1, 2⟩ 0).1 100 = 2 :=
  specialDays_overlap_warns_and_overwrites (fun day => if day = 100 then 1 else 0) 0
    100 2 0 (by norm_num) (by norm_num) (by norm_num)

/-- C8: during the first-day search an end-of-file rewinds at most once,
declaring a severe error exactly when the rewind counter is already
positive; during mid-run reading, end-of-file with a single full-year
data period rewinds and continues, a single shorter data period is fatal,
and several data periods are fatal. -/
theorem weatherFile_eof_policy (NumRewinds : Nat) (ReadStatus : Int)
    (NumDataPeriods NumDays NumDaysInYear : Nat) (hEOF : ReadStatus < 0) :
    (firstDayEOFHandling NumRewinds = .severeError ↔ 0 < NumRewinds) ∧
    (NumDataPeriods = 1 → NumDaysInYear ≤ NumDays →
      midRunReadFailHandling ReadStatus NumDataPeriods NumDays NumDaysInYear
        = .rewindAndContinue) ∧
    (NumDataPeriods = 1 → NumDays < NumDaysInYear →
      midRunReadFailHandling ReadStatus NumDataPeriods NumDays NumDaysInYear
        = .fatalEndOfFile) ∧
    (NumDataPeriods ≠ 1 →
      midRunReadFailHandling ReadStatus NumDataPeriods NumDays NumDaysInYear
        = .fatalUnexpected) := by
  unfold firstDayEOFHandling midRunReadFailHandling
  refine ⟨?_, fun hp hd => ?_, fun hp hd => ?_, fun hp => ?_⟩
  · split_ifs with h
    · simp [h]
    · simp only [Nat.not_lt_eq] at h  -- h : NumRewinds ≤ 0? adjust below
      constructor
      · intro hc
        exact absurd hc (by simp)
      · omega
  · rw [if_pos ⟨hEOF, hp⟩, if_pos hd]
  · rw [if_pos ⟨hEOF, hp⟩, if_neg (by omega)]
  · rw [if_neg (by tauto)]

theorem weatherFile_eof_policy_witness :
    (firstDayEOFHandling 1 = .severeError ↔ 0 < 1) ∧
    ((1 : Nat) = 1 → (365 : Nat) ≤ 365 →
      midRunReadFailHandling (-1) 1 365 365 = .rewindAndContinue) ∧
    ((1 : Nat) = 1 → (365 : Nat) < 365 →
      midRunReadFailHandling (-1) 1 365 365 = .fatalEndOfFile) ∧
    ((1 : Nat) ≠ 1 →
      midRunReadFailHandling (-1) 1 365 365 = .fatalUnexpected) :=
  weatherFile_eof_policy 1 (-1) 1 365 365 (by norm_num)

/-- Counterexample to C9 as stated: with one timestep per hour, a nonzero
final value in hour 24 makes the back-filled hour-1 value 1, while the
plain average of the hour-1 timesteps is 0. -/
theorem backfill_not_plain_average :
    backFilledHourlySolar (fun ts h => if ts = 1 ∧ h = 24 then 2 else 0) 1 1 = 1 ∧
    hourlyAverageOfTimesteps (fun ts h => if ts = 1 ∧ h = 24 then 2 else 0) 1 1 = 0 ∧
    backFilledHourlySolar (fun ts h => if ts = 1 ∧ h = 24 then 2 else 0) 1 1 ≠
      hourlyAverageOfTimesteps (fun ts h => if ts = 1 ∧ h = 24 then 2 else 0) 1 1 := by
  refine ⟨?_, ?_, ?_⟩ <;> norm_num [backFilledHourlySolar, hourlyAverageOfTimesteps,
    sumTS, Hour1Ago]

/-- C9 (amended): the back-filled hourly solar value equals the plain
within-hour average of the sub-hourly values plus a correction of
(last timestep of the previous hour minus last timestep of the current
hour) divided by 2N; the two agree exactly when those final timestep
values coincide. -/
theorem backfill_hourly_solar (f : Nat → Nat → ℚ) (N Hour : Nat) (hN : 1 ≤ N) :
    backFilledHourlySolar f N Hour =
      hourlyAverageOfTimesteps f N Hour
        + (f N (Hour1Ago Hour) - f N Hour) / (2 * (N : ℚ)) := by
  have hNQ : ((N : ℚ)) ≠ 0 := by positivity
  unfold backFilledHourlySolar hourlyAverageOfTimesteps
  have hsum : sumTS (fun ts => f ts Hour) N
      = sumTS (fun ts => f ts Hour) (N - 1) + f N Hour := by
    unfold sumTS
    have e : N = (N - 1) + 1 := by omega
    rw [e, Finset.sum_Icc_succ_top (by omega)]
    simp [Nat.add_sub_cancel]
  simp only []
  by_cases h : N > 1
  · rw [if_pos h, hsum]
    field_simp
    try ring
  · have hN1 : N = 1 := by omega
    subst hN1
    have hone : sumTS (fun ts => f ts Hour) 1 = f 1 Hour := by
      unfold sumTS
      rw [Finset.Icc_self, Finset.sum_singleton]
    rw [if_neg h, hone]
    field_simp
    ring

/-- Witness for C9 (amended) with a constant sub-hourly series. -/
theorem backfill_hourly_solar_witness :
    backFilledHourlySolar (fun _ _ => (3 : ℚ)) 4 2 =
      hourlyAverageOfTimesteps (fun _ _ => (3 : ℚ)) 4 2
        + ((3 : ℚ) - 3) / (2 * ((4 : Nat) : ℚ)) :=
  backfill_hourly_solar (fun _ _ => 3) 4 2 (by norm_num)

/-- C10: for every month outside 1..12, `validMonthDay` returns false for
every day and leap offset. -/
theorem validMonthDay_bad_month (month day leapYearAdd : Int)
    (h : month < 1 ∨ 12 < month) :
    validMonthDay month day leapYearAdd = false := by
  unfold validMonthDay
  split_ifs <;> first | rfl | omega

theorem validMonthDay_bad_month_witness : validMonthDay 13 5 0 = false :=
  validMonthDay_bad_month 13 5 0 (by norm_num)


end WeatherManager

